import Mathlib

/-!
Verification of the DrawingCNC pipeline script (src/drawingcnc.py).

The script wires three external programs together:
  take_calibrated_picture  (capture tool, stdout captured)
  convert                  (raster to portable format, stdin/stdout pipes)
  potrace                  (tracer, stdin wired to the stdout of convert)
and writes the traced result to the file named by the first command-line
argument.

The development has two layers.

Layer 1 is a statement-level transliteration of the body of jpegToEPS
(lines 40-49 of drawingcnc.py) together with the POSIX launch semantics
of its Popen calls, used to settle the claims about data flow into the
conversion stage and about termination of the conversion step.

Layer 2 is a denotational model of the remaining functions
(getCalibratedJPEG, getEPSDrawing, the top-level block) as functions from
an abstract environment to a trace of external actions paired with an
outcome (normal return, sys.exit, uncaught exception, or divergence).
-/

/-! ## Layer 1: the body of jpegToEPS, statement by statement -/

/-- Names of the two subprocess variables bound in the body of jpegToEPS. -/
inductive ProcName
  | convert
  | potrace
deriving DecidableEq

/-- What the Popen call at a given line passes for stdin:
a fresh pipe (subprocess.PIPE), the stdout handle of an earlier
subprocess, or nothing (inherit). -/
inductive StdinSpec
  | pipe
  | fromStdoutOf (p : ProcName)
  | inherit
deriving DecidableEq

/-- What the Popen call passes for stdout. -/
inductive StdoutSpec
  | pipe
  | inherit
deriving DecidableEq

/-- One Python statement of the kind occurring in (or relevant to the
claims about) the body of jpegToEPS.  The constructors writeStdinOf,
closeStdinOf and communicateFeeding do not occur in the body of the
source function; they are included so that their absence from the
transliterated body is a statement the theorems can make. -/
inductive Stmt
  | popen (bindsVar : String) (cmd : String) (stdin : StdinSpec) (stdout : StdoutSpec)
  | closeStdoutHandleOf (p : ProcName)
  | writeStdinOf (p : ProcName) (payloadVar : String)
  | closeStdinOf (p : ProcName)
  | communicateNoInput (bindsVar : String) (p : ProcName)
  | communicateFeeding (bindsVar : String) (p : ProcName) (payloadVar : String)
  | waitOn (p : ProcName)
  | ret (resultVar : String)
deriving DecidableEq

/-- Transliteration of the body of jpegToEPS, drawingcnc.py lines 40-49:

  convert = subprocess.Popen("convert -:jpg pnm:-", stdin=PIPE, stdout=PIPE)
  potrace = subprocess.Popen("potrace", stdin=convert.stdout, stdout=PIPE)
  convert.stdout.close()
  output = potrace.communicate()[0]
  convert.wait()
  return output

Note that the parameter jpg_data of the Python function is not mentioned
by any statement of the body, so the list is a closed constant. -/
def jpegToEPS_body : List Stmt :=
  [ Stmt.popen "convert" "convert -:jpg pnm:-" StdinSpec.pipe StdoutSpec.pipe,
    Stmt.popen "potrace" "potrace" (StdinSpec.fromStdoutOf ProcName.convert) StdoutSpec.pipe,
    Stmt.closeStdoutHandleOf ProcName.convert,
    Stmt.communicateNoInput "output" ProcName.potrace,
    Stmt.waitOn ProcName.convert,
    Stmt.ret "output" ]

/-- Whether a statement supplies any bytes to the stdin pipe of process p.
Only an explicit p.stdin.write(...) or a communicate call on p that passes
an input payload does so; potrace.communicate() at line 47 passes no input
(and the stdin attribute of potrace is not a pipe owned by the parent,
since it was wired to the stdout of convert at line 44). -/
def suppliesInputTo (p : ProcName) : Stmt → Bool
  | Stmt.writeStdinOf q _ => q == p
  | Stmt.communicateFeeding _ q _ => q == p
  | _ => false

/-- Whether a statement closes the write end, held by the parent, of the
stdin pipe of process p.  An explicit p.stdin.close() does, and a
communicate call on p does (communicate closes the stdin pipe of its
process after writing the payload, when that process was created with
stdin=PIPE).  The communicate call in the body is on potrace, whose stdin
is not a parent-held pipe, so it closes nothing of convert. -/
def closesStdinOf (p : ProcName) : Stmt → Bool
  | Stmt.closeStdinOf q => q == p
  | Stmt.communicateFeeding _ q _ => q == p
  | _ => false

/-- Whether a statement mentions the Python variable v as a data payload. -/
def usesPayloadVar (v : String) : Stmt → Bool
  | Stmt.writeStdinOf _ w => w == v
  | Stmt.communicateFeeding _ _ w => w == v
  | _ => false

/-- Whether a statement waits for the termination of process p:
an explicit p.wait(), or a communicate call on p (communicate reads the
stdout of p to end of stream and then waits for p to terminate). -/
def waitsFor (p : ProcName) : Stmt → Bool
  | Stmt.waitOn q => q == p
  | Stmt.communicateNoInput _ q => q == p
  | Stmt.communicateFeeding _ q _ => q == p
  | _ => false

/-- Whether a statement is the return statement. -/
def Stmt.isRet : Stmt → Bool
  | Stmt.ret _ => true
  | _ => false

/-! ### Launch semantics of the Popen calls in the body

Every Popen call of the script passes its command as a single string and
leaves shell at its default of False.  On POSIX a string args value is
taken verbatim as the name of the program to execute, with no word
splitting and no shell interpretation, so the launch succeeds exactly
when an executable whose full name equals that string can be found (via
PATH when the string holds no slash).  In particular the call at line 40
searches for an executable literally named "convert -:jpg pnm:-"; the
intended invocation of the converter with two arguments would have needed
a list args value or shell=True.
-/

/-- Whether a statement launches its program successfully, given the list
of the full names of the executables that can be found.  Statements other
than popen launch nothing and cannot fail this way. -/
def launchSucceeds (available : List String) : Stmt → Bool
  | Stmt.popen _ cmd _ _ => available.contains cmd
  | _ => true

/-- The first statement of the body of jpegToEPS whose launch fails, if
any: Popen raises FileNotFoundError there, the exception is uncaught (the
only try/except of the script is inside getCalibratedJPEG), and no later
statement of the body executes. -/
def firstFailedLaunch (available : List String) : Option Stmt :=
  jpegToEPS_body.find? (fun s => ! launchSucceeds available s)

/-- Modelled from the spec: the executables present in a correctly
provisioned environment.  The module docstring of drawingcnc.py (line 8)
names the dependencies take_calibrated_picture, imagemagick and potrace;
imagemagick provides the executable named convert, the capture tool lives
at the relative path used at line 23, and the tracer is the executable
named potrace (spec section 6).  No executable named
"convert -:jpg pnm:-" exists. -/
def installedExecutables : List String :=
  ["take_calibrated_picture/take_calibrated_picture", "convert", "potrace"]

/-! ## Layer 2: denotational model of the remaining functions

Each function denotes a pair of a trace of external actions and an
outcome.  Machine bytes are modelled as natural numbers below 256 held in
a list; the bound is irrelevant to every claim, so plain List Nat is used.
-/

/-- A Python runtime value of the kinds the script produces: a bytes
object or a str object.  Popen.communicate returns bytes here, since none
of the Popen calls pass text mode or an encoding. -/
inductive PyVal
  | bytes (b : List Nat)
  | str (s : String)
deriving DecidableEq

/-- Outcome of running a piece of the script: normal value, sys.exit with
a message (sys.exit of a string prints the message and exits with status
code 1), an uncaught exception, or divergence (blocking forever). -/
inductive Outcome (α : Type)
  | ok (a : α)
  | sysExit (msg : String) (code : Nat)
  | raised (exc : String)
  | diverge
deriving DecidableEq

/-- Externally visible actions of the script. invokeCaptureTool stands
for the Popen call at line 22 (the launch attempt, whether or not the
executable exists); spawnConvertTool and spawnPotraceTool for the Popen
calls at lines 40 and 43; openOutput and writeOutput for lines 69-70. -/
inductive Act
  | invokeCaptureTool
  | spawnConvertTool
  | spawnPotraceTool
  | openOutput (filename : String)
  | writeOutput (filename : String) (text : String)
deriving DecidableEq

/-- Whether an action touches the filesystem (opens or writes the output
file). -/
def isFileAct : Act → Bool
  | Act.openOutput _ => true
  | Act.writeOutput _ _ => true
  | _ => false

/-- Abstract environment: whether the capture executable exists at the
relative path used at line 23, the bytes it writes to stdout, and its
exit status.  The exit status field exists so that theorems can state
that the script never consults it. -/
structure Env where
  captureToolPresent : Bool
  captureBytes : List Nat
  captureExitCode : Nat
deriving DecidableEq

/-- The message passed to sys.exit at line 27. -/
def toolMissingMsg : String :=
  "Please build the take_calibrated_picture script first."

/-- Transliteration of getCalibratedJPEG, lines 21-28.  The try block
wraps the Popen call and the communicate call; Popen raises
FileNotFoundError exactly when the executable is absent, and the handler
calls sys.exit with a remediation message.  Otherwise communicate returns
the pair of captured stdout and None, and index 0 of it is returned.
The exit status of the capture tool is never read. -/
def getCalibratedJPEG (env : Env) : List Act × Outcome (List Nat) :=
  if env.captureToolPresent then
    ([Act.invokeCaptureTool], Outcome.ok env.captureBytes)
  else
    ([Act.invokeCaptureTool], Outcome.sysExit toolMissingMsg 1)

/-- Denotation of jpegToEPS, lines 31-49.  The Popen call at line 40
passes its whole command line as one string with shell left at False, so
it searches for an executable literally named "convert -:jpg pnm:-"; no
such executable exists (theorem c2_convert_launch_fails_run_crashes
derives this from launchSucceeds and installedExecutables), so line 40
raises FileNotFoundError.  The exception is uncaught here, hence lines
43-49 never execute: potrace is never spawned, nothing is written to or
closed on any pipe, and no value is returned.  The parameter jpg_data is
unused by the body (theorem c1_input_never_reaches_converter below). -/
def jpegToEPS (jpg_data : List Nat) : List Act × Outcome (List Nat) :=
  ([Act.spawnConvertTool], Outcome.raised "FileNotFoundError")

/-- Transliteration of getEPSDrawing, lines 52-60:

  jpeg_data = getCalibratedJPEG()
  eps_data = jpegToEPS(jpeg_data)
  return eps_data

A sys.exit raised inside getCalibratedJPEG propagates (SystemExit is an
exception), so the second call runs only when the first returned
normally. -/
def getEPSDrawing (env : Env) : List Act × Outcome (List Nat) :=
  match getCalibratedJPEG env with
  | (t, Outcome.ok jpeg_data) =>
      let r := jpegToEPS jpeg_data
      (t ++ r.1, r.2)
  | (t, Outcome.sysExit m c) => (t, Outcome.sysExit m c)
  | (t, Outcome.raised e) => (t, Outcome.raised e)
  | (t, Outcome.diverge) => (t, Outcome.diverge)

/-- Generic sequential composition of a first stage with a dependent
second stage, stated from the words of the spec (RunPipeline composes
AcquireCalibratedImage then TraceToVector, no independent logic): run the
first stage; if and only if it returned a value, run the second stage on
that value, accumulating traces in order. -/
def seqComp (first : List Act × Outcome (List Nat))
    (second : List Nat → List Act × Outcome (List Nat)) :
    List Act × Outcome (List Nat) :=
  match first with
  | (t, Outcome.ok a) =>
      let r := second a
      (t ++ r.1, r.2)
  | (t, Outcome.sysExit m c) => (t, Outcome.sysExit m c)
  | (t, Outcome.raised e) => (t, Outcome.raised e)
  | (t, Outcome.diverge) => (t, Outcome.diverge)

/-- Transliteration of lines 69-70:

  with open(sys.argv[1], "w", encoding="utf-8") as fh:
      fh.write(eps_data)

The open call creates or truncates the named file in text mode.  Writing
a str succeeds and writes its utf-8 encoding; writing a bytes object to a
text-mode file raises TypeError (write argument must be str, not bytes),
after the file has already been opened and truncated. -/
def writeEPSFile (filename : String) (eps_data : PyVal) : List Act × Outcome Unit :=
  match eps_data with
  | PyVal.str s => ([Act.openOutput filename, Act.writeOutput filename s], Outcome.ok ())
  | PyVal.bytes _ => ([Act.openOutput filename], Outcome.raised "TypeError")

/-- Transliteration of the top-level block, lines 63-70.  sys.argv is
modelled as a head element argv0 (the script path, always present) and
the list args of the remaining arguments, so len(sys.argv) is
1 + args.length.  When the length test passes, args is nonempty and
sys.argv[1] is its head.  The value reaching fh.write is
potrace.communicate()[0], a bytes object, hence the PyVal.bytes wrapper. -/
def pythonMain (env : Env) (argv0 : String) (args : List String) : List Act × Outcome Unit :=
  if (argv0 :: args).length < 2 then
    ([], Outcome.sysExit ("Usage: " ++ argv0 ++ " OUTPUT_FILENAME.eps.") 1)
  else
    match getEPSDrawing env with
    | (t, Outcome.ok eps_data) =>
        let w := writeEPSFile (args.headD "") (PyVal.bytes eps_data)
        (t ++ w.1, w.2)
    | (t, Outcome.sysExit m c) => (t, Outcome.sysExit m c)
    | (t, Outcome.raised e) => (t, Outcome.raised e)
    | (t, Outcome.diverge) => (t, Outcome.diverge)

/-! ## Theorems settling the claims -/

/-- C1 (refuting evidence): no statement of the body of jpegToEPS writes
any bytes to the stdin pipe of the convert subprocess, none closes it,
and none mentions the parameter jpg_data as a payload at all.  The raster
bytes are therefore never supplied to the conversion stage, contrary to
the claim that jpegToEPS feeds rasterBytes to the stdin of convert and
returns tracer(convert(rasterBytes)). -/
theorem c1_input_never_reaches_converter :
    jpegToEPS_body.filter (suppliesInputTo ProcName.convert) = []
      ∧ jpegToEPS_body.filter (closesStdinOf ProcName.convert) = []
      ∧ jpegToEPS_body.filter (usesPayloadVar "jpg_data") = [] := by
  decide

/-- C2 (refuting evidence): the very first statement of the body of
jpegToEPS is already a failed launch — the Popen call at line 40 asks for
an executable literally named "convert -:jpg pnm:-", which the provisioned
environment does not provide — so the call raises uncaught
FileNotFoundError on every input and the denotation of jpegToEPS is one
launch attempt ending in that exception.  The conversion stage never
starts, its input stream is never supplied nor closed, and the run dies
with a traceback instead of terminating normally, contrary to the claim
that the raster bytes are fully supplied, the stream closed, and the
conversion stage terminates normally. -/
theorem c2_convert_launch_fails_run_crashes :
    firstFailedLaunch installedExecutables
        = some (Stmt.popen "convert" "convert -:jpg pnm:-" StdinSpec.pipe StdoutSpec.pipe)
      ∧ ∀ d : List Nat,
          jpegToEPS d = ([Act.spawnConvertTool], Outcome.raised "FileNotFoundError") := by
  exact ⟨by decide, fun d => rfl⟩

/-- C3: with no output-filename argument (sys.argv holding only the
script path), the top-level block exits via sys.exit with the usage
message and status 1, and its trace of external actions is empty, so no
external tool is invoked. -/
theorem c3_usage_exit_when_no_output_arg :
    ∀ (env : Env) (argv0 : String),
      pythonMain env argv0 [] =
        ([], Outcome.sysExit ("Usage: " ++ argv0 ++ " OUTPUT_FILENAME.eps.") 1) := by
  intro env argv0
  rfl

/-- C4: when the capture executable is absent, the pipeline performs only
the capture launch attempt and exits via sys.exit with status 1 and the
build-the-capture-tool message; the trace holds neither spawnConvertTool
nor spawnPotraceTool nor any file action.  The same holds for the whole
top-level run with any argument list that passes the length test. -/
theorem c4_capture_tool_missing_halts :
    ∀ (b : List Nat) (e : Nat) (argv0 f : String) (r : List String),
      getEPSDrawing ⟨false, b, e⟩ = ([Act.invokeCaptureTool], Outcome.sysExit toolMissingMsg 1)
        ∧ pythonMain ⟨false, b, e⟩ argv0 (f :: r) =
            ([Act.invokeCaptureTool], Outcome.sysExit toolMissingMsg 1) := by
  intro b e argv0 f r
  exact ⟨rfl, rfl⟩

/-- C5 (refuting evidence): the value reaching fh.write at line 70 is a
bytes object (potrace.communicate()[0]), and the file was opened in text
mode with an encoding at line 69, so the write raises TypeError after the
open has already created or truncated the file; the bytes are never
written, contrary to the claim that they are written unmodified. -/
theorem c5_write_of_bytes_raises :
    ∀ (filename : String) (b : List Nat),
      writeEPSFile filename (PyVal.bytes b) =
        ([Act.openOutput filename], Outcome.raised "TypeError") := by
  intro filename b
  rfl

/-- C6: getEPSDrawing is exactly the sequential composition of
getCalibratedJPEG with jpegToEPS, and whenever the capture stage returns
bytes d, the trace of the composite is the capture trace followed by the
trace of jpegToEPS applied to exactly d, whose outcome is the outcome of
the composite; the capture step thus completes before any conversion
action occurs. -/
theorem c6_pipeline_is_composition :
    ∀ env : Env,
      getEPSDrawing env = seqComp (getCalibratedJPEG env) jpegToEPS
        ∧ ∀ d : List Nat, (getCalibratedJPEG env).2 = Outcome.ok d →
            (getEPSDrawing env).1 = (getCalibratedJPEG env).1 ++ (jpegToEPS d).1
              ∧ (getEPSDrawing env).2 = (jpegToEPS d).2 := by
  intro env
  obtain ⟨p, b, e⟩ := env
  cases p
  · refine ⟨rfl, ?_⟩
    intro d h
    exact absurd h (by simp [getCalibratedJPEG])
  · refine ⟨rfl, ?_⟩
    intro d h
    have hd : b = d := by
      simpa [getCalibratedJPEG] using h
    subst hd
    exact ⟨rfl, rfl⟩

/-- Witness for c6_pipeline_is_composition at a concrete environment
whose capture stage returns the bytes [7]. -/
theorem c6_pipeline_is_composition_witness :
    (getEPSDrawing ⟨true, [7], 0⟩ = seqComp (getCalibratedJPEG ⟨true, [7], 0⟩) jpegToEPS)
      ∧ ((getEPSDrawing ⟨true, [7], 0⟩).1
            = (getCalibratedJPEG ⟨true, [7], 0⟩).1 ++ (jpegToEPS [7]).1
          ∧ (getEPSDrawing ⟨true, [7], 0⟩).2 = (jpegToEPS [7]).2) :=
  ⟨(c6_pipeline_is_composition ⟨true, [7], 0⟩).1,
   (c6_pipeline_is_composition ⟨true, [7], 0⟩).2 [7] rfl⟩

/-- C7: in the body of jpegToEPS, before the return statement there is
both a statement waiting for the termination of potrace (the communicate
call at line 47) and a statement waiting for the termination of convert
(the wait call at line 48); and the only return statement is the final
one.  So on any return, both subprocesses have been waited on. -/
theorem c7_waits_on_both_before_return :
    ((jpegToEPS_body.takeWhile fun s => ! s.isRet).any (waitsFor ProcName.potrace) = true)
      ∧ ((jpegToEPS_body.takeWhile fun s => ! s.isRet).any (waitsFor ProcName.convert) = true)
      ∧ jpegToEPS_body.filter Stmt.isRet = [Stmt.ret "output"] := by
  decide

/-- C8: whenever the pipeline terminates via sys.exit, the exit is the
capture-tool-missing one with status 1, and at that point the trace holds
only the capture launch attempt (so the exit happened during the capture
stage, before any conversion or tracing action); moreover the pipeline
never consults the exit status of the capture process: its behaviour is
identical for any two values of that status, so subprocess failures are
neither detected nor classified. -/
theorem c8_tool_missing_is_only_modeled_exit :
    ∀ (p : Bool) (b : List Nat) (e eOther : Nat) (m : String) (c : Nat),
      ((getEPSDrawing ⟨p, b, e⟩).2 = Outcome.sysExit m c →
          m = toolMissingMsg ∧ c = 1
            ∧ (getEPSDrawing ⟨p, b, e⟩).1 = [Act.invokeCaptureTool])
        ∧ getEPSDrawing ⟨p, b, e⟩ = getEPSDrawing ⟨p, b, eOther⟩ := by
  intro p b e eOther m c
  cases p
  · refine ⟨?_, rfl⟩
    intro h
    have hm : toolMissingMsg = m ∧ 1 = c := by
      simpa [getEPSDrawing, getCalibratedJPEG] using h
    exact ⟨hm.1.symm, hm.2.symm, rfl⟩
  · refine ⟨?_, rfl⟩
    intro h
    exact absurd h (by simp [getEPSDrawing, getCalibratedJPEG, jpegToEPS])

/-- Witness for c8_tool_missing_is_only_modeled_exit at a concrete
environment with the capture tool absent, discharging the exit
hypothesis. -/
theorem c8_tool_missing_is_only_modeled_exit_witness :
    (toolMissingMsg = toolMissingMsg ∧ 1 = 1
        ∧ (getEPSDrawing ⟨false, [], 0⟩).1 = [Act.invokeCaptureTool])
      ∧ getEPSDrawing ⟨false, [], 0⟩ = getEPSDrawing ⟨false, [], 5⟩ :=
  ⟨(c8_tool_missing_is_only_modeled_exit false [] 0 5 toolMissingMsg 1).1 rfl,
   (c8_tool_missing_is_only_modeled_exit false [] 0 5 toolMissingMsg 1).2⟩

/-- C9: on every run that ends in a sys.exit (missing argument, or
missing capture tool), the trace of the top-level block holds no
filesystem action: the output file is neither created nor modified,
because line 69 opens it only after getEPSDrawing has returned a value. -/
theorem c9_error_exits_touch_no_file :
    ∀ (env : Env) (argv0 : String) (args : List String) (m : String) (c : Nat),
      (pythonMain env argv0 args).2 = Outcome.sysExit m c →
        (pythonMain env argv0 args).1.filter isFileAct = [] := by
  intro env argv0 args m c _h
  obtain ⟨p, b, e⟩ := env
  cases args with
  | nil => rfl
  | cons f r => cases p <;> rfl

/-- Witness for c9_error_exits_touch_no_file on the run with the capture
tool absent and one argument, which exits via sys.exit. -/
theorem c9_error_exits_touch_no_file_witness :
    (pythonMain ⟨false, [], 0⟩ "drawingcnc.py" ["out.eps"]).1.filter isFileAct = [] :=
  c9_error_exits_touch_no_file ⟨false, [], 0⟩ "drawingcnc.py" ["out.eps"]
    toolMissingMsg 1 rfl

/-- C10: two invocations with at least two argv entries agreeing on the
first argument (the output filename) behave identically, whatever the
script path and the extra arguments are: the top-level block reads no
argv entry beyond index 1 once the length test has passed. -/
theorem c10_extra_args_ignored :
    ∀ (env : Env) (argv0 argv0Other f : String) (r rOther : List String),
      pythonMain env argv0 (f :: r) = pythonMain env argv0Other (f :: rOther) := by
  intro env argv0 argv0Other f r rOther
  obtain ⟨p, b, e⟩ := env
  cases p <;> rfl
